import Mathlib

/-!
Shallow embedding of the vmrun hypervisor-core header (src/kernel/vmrun.h)
and of the operations its declarations support, together with the theorems
that settle the specification claims.

Constants, enumerations and bit masks are transcribed from the header.
Operational behaviour (memory-slot mutation, VCPU creation, ASID
assignment, lazy register caching) is not present under src/ — the header
declares only the data layout — so those operations are modelled from the
specification text, as marked on each definition.
-/

namespace Vmrun

/-! ## Constants from src/kernel/vmrun.h -/

def VMRUN_MAX_VCPUS : Nat := 288
def VMRUN_SOFT_MAX_VCPUS : Nat := 240
def VMRUN_MAX_VCPU_ID : Nat := 1023

def VMRUN_USER_MEM_SLOTS : Nat := 509
def VMRUN_PRIVATE_MEM_SLOTS : Nat := 3
def VMRUN_MEM_SLOTS_NUM : Nat := VMRUN_USER_MEM_SLOTS + VMRUN_PRIVATE_MEM_SLOTS
def VMRUN_NR_PAGE_SIZES : Nat := 3
def VMRUN_ADDRESS_SPACE_NUM : Nat := 2

/-- Linux GENMASK(h, l): bits h..l set. -/
def GENMASK (h l : Nat) : Nat := 2 ^ (h + 1) - 2 ^ l

/-- Linux BIT(n). -/
def BIT (n : Nat) : Nat := 2 ^ n

def VMRUN_REQUEST_MASK : Nat := GENMASK 7 0
def VMRUN_REQUEST_NO_WAKEUP : Nat := BIT 8
def VMRUN_REQUEST_WAIT : Nat := BIT 9
def VMRUN_REQ_TLB_FLUSH : Nat := 0 ||| VMRUN_REQUEST_WAIT ||| VMRUN_REQUEST_NO_WAKEUP

def VMRUN_TSS_PRIVATE_MEMSLOT : Nat := VMRUN_USER_MEM_SLOTS + 0
def VMRUN_APIC_ACCESS_PAGE_PRIVATE_MEMSLOT : Nat := VMRUN_USER_MEM_SLOTS + 1
def VMRUN_IDENTITY_PAGETABLE_PRIVATE_MEMSLOT : Nat := VMRUN_USER_MEM_SLOTS + 2

/-! ### Page-fault error-code bits (PFERR_*) -/

def PFERR_PRESENT_BIT : Nat := 0
def PFERR_WRITE_BIT : Nat := 1
def PFERR_USER_BIT : Nat := 2
def PFERR_RSVD_BIT : Nat := 3
def PFERR_FETCH_BIT : Nat := 4
def PFERR_PK_BIT : Nat := 5
def PFERR_GUEST_FINAL_BIT : Nat := 32
def PFERR_GUEST_PAGE_BIT : Nat := 33

def PFERR_PRESENT_MASK : Nat := 1 <<< PFERR_PRESENT_BIT
def PFERR_WRITE_MASK : Nat := 1 <<< PFERR_WRITE_BIT
def PFERR_USER_MASK : Nat := 1 <<< PFERR_USER_BIT
def PFERR_RSVD_MASK : Nat := 1 <<< PFERR_RSVD_BIT
def PFERR_FETCH_MASK : Nat := 1 <<< PFERR_FETCH_BIT
def PFERR_PK_MASK : Nat := 1 <<< PFERR_PK_BIT
def PFERR_GUEST_FINAL_MASK : Nat := 1 <<< PFERR_GUEST_FINAL_BIT
def PFERR_GUEST_PAGE_MASK : Nat := 1 <<< PFERR_GUEST_PAGE_BIT

/-- Truncation to an unsigned 32-bit value, as performed by passing a wider
value in a C `u32` parameter. -/
def u32cast (n : Nat) : Nat := n % 2 ^ 32

/-- The `page_fault` member of `struct vmrun_mmu` is declared
`int (*page_fault)(struct vmrun_vcpu *vcpu, gva_t gva, u32 err)`: the
error-bits argument is received as a `u32`, so this is the value the
callback observes for a given caller-side error-bits word. -/
def pageFaultErrParam (error_bits : Nat) : Nat := u32cast error_bits

/-! ### VMCB clean-bits sections (anonymous enum) and always-dirty mask -/

def VMCB_INTERCEPTS : Nat := 0
def VMCB_PERM_MAP : Nat := 1
def VMCB_ASID : Nat := 2
def VMCB_INTR : Nat := 3
def VMCB_NPT : Nat := 4
def VMCB_CR : Nat := 5
def VMCB_DR : Nat := 6
def VMCB_DT : Nat := 7
def VMCB_SEG : Nat := 8
def VMCB_CR2 : Nat := 9
def VMCB_LBR : Nat := 10
def VMCB_AVIC : Nat := 11
def VMCB_DIRTY_MAX : Nat := 12

def VMCB_ALWAYS_DIRTY_MASK : Nat := (1 <<< VMCB_INTR) ||| (1 <<< VMCB_CR2)

/-- Modelled from the spec: before every guest entry the set of control-block
sections rewritten is the dirty-section bitmask together with the two
always-dirty sections (the header has only the mask; the per-entry rewrite
loop is outside src/). -/
def sectionsRewritten (dirty_mask : Nat) : Nat := dirty_mask ||| VMCB_ALWAYS_DIRTY_MASK

/-! ### Register file indices (enum vmrun_reg, enum vmrun_reg_ex) -/

def VCPU_REGS_RAX : Nat := 0
def VCPU_REGS_RCX : Nat := 1
def VCPU_REGS_RDX : Nat := 2
def VCPU_REGS_RBX : Nat := 3
def VCPU_REGS_RSP : Nat := 4
def VCPU_REGS_RBP : Nat := 5
def VCPU_REGS_RSI : Nat := 6
def VCPU_REGS_RDI : Nat := 7
def VCPU_REGS_R8 : Nat := 8
def VCPU_REGS_R9 : Nat := 9
def VCPU_REGS_R10 : Nat := 10
def VCPU_REGS_R11 : Nat := 11
def VCPU_REGS_R12 : Nat := 12
def VCPU_REGS_R13 : Nat := 13
def VCPU_REGS_R14 : Nat := 14
def VCPU_REGS_R15 : Nat := 15
def VCPU_REGS_RIP : Nat := 16
def NR_VCPU_REGS : Nat := 17

def VCPU_EXREG_PDPTR : Nat := NR_VCPU_REGS
def VCPU_EXREG_CR3 : Nat := NR_VCPU_REGS + 1
def VCPU_EXREG_RFLAGS : Nat := NR_VCPU_REGS + 2
def VCPU_EXREG_SEGMENTS : Nat := NR_VCPU_REGS + 3

/-- The full list of register indices tracked by the `regs_avail` /
`regs_dirty` bitmasks (general registers and extended registers). -/
def trackedRegIndices : List Nat :=
  [VCPU_REGS_RAX, VCPU_REGS_RCX, VCPU_REGS_RDX, VCPU_REGS_RBX,
   VCPU_REGS_RSP, VCPU_REGS_RBP, VCPU_REGS_RSI, VCPU_REGS_RDI,
   VCPU_REGS_R8, VCPU_REGS_R9, VCPU_REGS_R10, VCPU_REGS_R11,
   VCPU_REGS_R12, VCPU_REGS_R13, VCPU_REGS_R14, VCPU_REGS_R15,
   VCPU_REGS_RIP, VCPU_EXREG_PDPTR, VCPU_EXREG_CR3, VCPU_EXREG_RFLAGS,
   VCPU_EXREG_SEGMENTS]

/-! ## Memory slots and address-space snapshots

The header declares the data layout (`struct vmrun_memory_slot`,
`struct vmrun_memslots`, `enum vmrun_mr_change`); the mutation code
(`set_memory_region`) is not under src/, so it is modelled from the
specification (§4.2, §3 "Address-Space Snapshot"). -/

/-- One memory slot, after `struct vmrun_memory_slot` (the allocator-owned
`dirty_bitmap` and `arch` tables are not needed by any claim). -/
structure MemorySlot where
  base_gfn : Nat
  npages : Nat
  userspace_addr : Nat
  flags : Nat
  id : Nat
deriving DecidableEq

/-- An address-space snapshot, after `struct vmrun_memslots`: a generation,
the slot array, and the slot-id → array-index table. -/
structure Memslots where
  generation : Nat
  memslots : List MemorySlot
  id_to_index : Nat → Option Nat

/-- The kinds of slot mutation, after `enum vmrun_mr_change`. -/
inductive vmrun_mr_change where
  | VMRUN_MR_CREATE
  | VMRUN_MR_DELETE
  | VMRUN_MR_MOVE
  | VMRUN_MR_FLAGS_ONLY
deriving DecidableEq

/-- Errors of the slot manager, from the spec's error taxonomy (§7). -/
inductive SlotError where
  | SlotInUse
  | SlotNotFound
  | Overlap
  | InvalidId
deriving DecidableEq

/-- Index of the first slot with the given id, or `none`. -/
def findIndexAux (l : List MemorySlot) (i : Nat) : Option Nat :=
  match l with
  | [] => none
  | sl :: rest =>
    if sl.id = i then some 0 else (findIndexAux rest i).map (fun n => n + 1)

/-- Build the id → index table of a snapshot from its slot array. -/
def buildIndex (l : List MemorySlot) : Nat → Option Nat :=
  fun i => findIndexAux l i

/-- Assemble a snapshot whose `id_to_index` table matches its slot array. -/
def mkSnapshot (gen : Nat) (l : List MemorySlot) : Memslots :=
  { generation := gen, memslots := l, id_to_index := buildIndex l }

/-- The initial (empty) snapshot of an address space: generation 0, no
slots (spec §4.1: `create_vm` initializes empty snapshots, generation 0). -/
def emptyMemslots : Memslots := mkSnapshot 0 []

/-- The slot currently registered under id `i`, if any. -/
def slotWithId (s : Memslots) (i : Nat) : Option MemorySlot :=
  s.memslots.find? (fun sl => sl.id = i)

/-- Whether the guest-frame ranges [b1, b1+n1) and [b2, b2+n2) intersect. -/
def rangesOverlap (b1 n1 b2 n2 : Nat) : Bool :=
  decide (b1 < b2 + n2) && decide (b2 < b1 + n1)

/-- Modelled from the spec: `set_memory_region` classifies a request as
Create / Delete / Move / Flags-only by comparing it against the slot
currently at `slot_id` (§4.2); a zero page count requests deletion. -/
def classifyChange (old : Option MemorySlot) (base_gfn npages : Nat) :
    Except SlotError vmrun_mr_change :=
  match old with
  | none =>
    if npages = 0 then Except.error SlotError.SlotNotFound
    else Except.ok vmrun_mr_change.VMRUN_MR_CREATE
  | some o =>
    if npages = 0 then Except.ok vmrun_mr_change.VMRUN_MR_DELETE
    else if npages ≠ o.npages then Except.error SlotError.InvalidId
    else if base_gfn ≠ o.base_gfn then Except.ok vmrun_mr_change.VMRUN_MR_MOVE
    else Except.ok vmrun_mr_change.VMRUN_MR_FLAGS_ONLY

/-- Modelled from the spec (§4.2): apply one classified mutation, producing
a new snapshot with the generation incremented, or an error. Create fails
with `SlotInUse` on an occupied id and with `Overlap` when the requested
guest-frame range intersects an existing slot; Delete removes the slot;
Move rewrites `base_gfn`/`userspace_addr`; Flags-only rewrites `flags`. -/
def applyChange (s : Memslots) (ch : vmrun_mr_change)
    (slot_id base_gfn npages userspace_addr flags : Nat) :
    Except SlotError Memslots :=
  match ch with
  | vmrun_mr_change.VMRUN_MR_CREATE =>
    if (slotWithId s slot_id).isSome then Except.error SlotError.SlotInUse
    else if s.memslots.any
        (fun sl => rangesOverlap base_gfn npages sl.base_gfn sl.npages) then
      Except.error SlotError.Overlap
    else
      Except.ok (mkSnapshot (s.generation + 1)
        (s.memslots ++ [⟨base_gfn, npages, userspace_addr, flags, slot_id⟩]))
  | vmrun_mr_change.VMRUN_MR_DELETE =>
    if (slotWithId s slot_id).isSome then
      Except.ok (mkSnapshot (s.generation + 1)
        (s.memslots.filter (fun sl => sl.id ≠ slot_id)))
    else Except.error SlotError.SlotNotFound
  | vmrun_mr_change.VMRUN_MR_MOVE =>
    if (slotWithId s slot_id).isSome then
      Except.ok (mkSnapshot (s.generation + 1)
        (s.memslots.map (fun sl =>
          if sl.id = slot_id then
            { sl with base_gfn := base_gfn, userspace_addr := userspace_addr }
          else sl)))
    else Except.error SlotError.SlotNotFound
  | vmrun_mr_change.VMRUN_MR_FLAGS_ONLY =>
    if (slotWithId s slot_id).isSome then
      Except.ok (mkSnapshot (s.generation + 1)
        (s.memslots.map (fun sl =>
          if sl.id = slot_id then { sl with flags := flags } else sl)))
    else Except.error SlotError.SlotNotFound

/-- Modelled from the spec (§4.2): the full `set_memory_region` operation —
validate the slot id, classify the request, then apply it. -/
def setMemoryRegion (s : Memslots)
    (slot_id base_gfn npages userspace_addr flags : Nat) :
    Except SlotError Memslots :=
  if VMRUN_MEM_SLOTS_NUM ≤ slot_id then Except.error SlotError.InvalidId
  else
    match classifyChange (slotWithId s slot_id) base_gfn npages with
    | Except.error e => Except.error e
    | Except.ok ch => applyChange s ch slot_id base_gfn npages userspace_addr flags

/-- The externally observable form of `set_memory_region`: on failure the
previously published snapshot is kept unchanged (spec §7: an error leaves
the VM in its prior state, no partial mutation is published). -/
def vmrunSetUserMemoryRegion (s : Memslots)
    (slot_id base_gfn npages userspace_addr flags : Nat) :
    Memslots × Option SlotError :=
  match setMemoryRegion s slot_id base_gfn npages userspace_addr flags with
  | Except.ok s2 => (s2, none)
  | Except.error e => (s, some e)

/-- Internal consistency of a published snapshot: slot ids are unique, and
the `id_to_index` table maps each slot's id to that slot's index in the
slot array. -/
def consistent (s : Memslots) : Prop :=
  s.memslots.Pairwise (fun a b => a.id ≠ b.id) ∧
  ∀ k : Fin s.memslots.length,
    s.id_to_index (s.memslots.get k).id = some k.val

instance consistentDecidable (s : Memslots) : Decidable (consistent s) := by
  unfold consistent
  infer_instance

/-! ## VM and VCPU creation

The header declares `struct vmrun` (the `vcpus[VMRUN_MAX_VCPUS]` table and
the `created_vcpus` / `online_vcpus` counters); `create_vcpu` itself is not
under src/ and is modelled from the specification (§4.1). -/

/-- Errors of VCPU creation, from the spec's error taxonomy (§7). -/
inductive VcpuError where
  | CapacityExceeded
  | InvalidId
deriving DecidableEq

/-- The VCPU-management portion of `struct vmrun`: the ids of the created
VCPUs (the occupied entries of the `vcpus` table) and the two counters. -/
structure VMState where
  vcpu_ids : List Nat
  created_vcpus : Nat
  online_vcpus : Nat
deriving DecidableEq

/-- A VM as `create_vm` leaves it: no VCPUs (spec §4.1). -/
def emptyVM : VMState := { vcpu_ids := [], created_vcpus := 0, online_vcpus := 0 }

/-- Modelled from the spec (§4.1): `create_vcpu(vm, id)` fails with
`CapacityExceeded` when `created_vcpus ≥ max`, fails with `InvalidId` when
the id is out of the range 0..max−1 or already used; otherwise the VCPU is
created, published, and the counters are incremented. -/
def createVcpu (vm : VMState) (id : Nat) : Except VcpuError VMState :=
  if VMRUN_MAX_VCPUS ≤ vm.created_vcpus then Except.error VcpuError.CapacityExceeded
  else if VMRUN_MAX_VCPUS ≤ id then Except.error VcpuError.InvalidId
  else if id ∈ vm.vcpu_ids then Except.error VcpuError.InvalidId
  else
    Except.ok
      { vcpu_ids := vm.vcpu_ids ++ [id]
        created_vcpus := vm.created_vcpus + 1
        online_vcpus := vm.online_vcpus + 1 }

/-- Externally observable form of `create_vcpu`: on failure the VM — its
VCPU table and both counters — is unchanged. -/
def vmrunCreateVcpu (vm : VMState) (id : Nat) : VMState × Option VcpuError :=
  match createVcpu vm id with
  | Except.ok vm2 => (vm2, none)
  | Except.error e => (vm, some e)

/-! ## ASID allocation

The header declares the per-core state (`struct vmrun_cpu_data`:
`asid_generation`, `max_asid`, `next_asid`) and the VCPU's cached
generation (`vmrun_vcpu.asid_generation`); the assignment and pre-entry
logic is not under src/ and is modelled from the specification (§4.4). -/

/-- Per-physical-core ASID state, after `struct vmrun_cpu_data`. -/
structure CpuData where
  asid_generation : Nat
  max_asid : Nat
  next_asid : Nat
deriving DecidableEq

/-- The ASID-related state of one VCPU: its cached generation (the
`asid_generation` field of `struct vmrun_vcpu`) and its current tag. -/
structure VcpuAsid where
  asid_generation : Nat
  asid : Nat
deriving DecidableEq

/-- A freshly initialized core: generation `g`, maximum tag `n`, and
`next_asid` at the first usable value 1. -/
def freshCpuData (g n : Nat) : CpuData :=
  { asid_generation := g, max_asid := n, next_asid := 1 }

/-- Modelled from the spec (§4.4): hand out one tag. Tags are handed out by
incrementing `next_asid`; when `next_asid` would exceed `max_asid`, the
generation counter increments and `next_asid` resets to the first usable
value (1) before the tag is handed out. Returns the new core state and the
assigned tag. -/
def newAsid (sd : CpuData) : CpuData × Nat :=
  if sd.max_asid < sd.next_asid then
    ({ asid_generation := sd.asid_generation + 1
       max_asid := sd.max_asid
       next_asid := 2 }, 1)
  else
    ({ sd with next_asid := sd.next_asid + 1 }, sd.next_asid)

/-- `k` successive tag assignments on one core. -/
def asidAssignIter : Nat → CpuData → CpuData
  | 0, sd => sd
  | k + 1, sd => asidAssignIter k (newAsid sd).1

/-- Modelled from the spec (§4.4): the check performed before a VCPU enters
the guest on a core. If the VCPU's cached generation differs from the
core's current generation, a fresh tag is assigned, the cached generation
is updated, and a full TLB flush is forced for this entry; otherwise the
existing tag is reused and no flush is forced. Returns the new core state,
the new VCPU ASID state, and whether a flush was forced. -/
def preEntryAsid (sd : CpuData) (v : VcpuAsid) : CpuData × VcpuAsid × Bool :=
  if v.asid_generation = sd.asid_generation then (sd, v, false)
  else
    let p := newAsid sd
    (p.1, { asid_generation := p.1.asid_generation, asid := p.2 }, true)

/-! ## Lazy register cache

The header declares `regs[NR_VCPU_REGS]`, `regs_avail` and `regs_dirty`
(and the comment that all register access goes through the
read/write helpers); the helpers themselves are not under src/ and are
modelled from the specification (§4.5). -/

/-- The lazy register cache of one VCPU together with the hardware-visible
register state it shadows. -/
structure RegCache where
  regs : Nat → Nat
  regs_avail : Nat
  regs_dirty : Nat
  hw : Nat → Nat

/-- Modelled from the spec (§4.5): writing a register stores the value in
the cache and sets both the "available" and the "dirty" bit. -/
def regWrite (c : RegCache) (r v : Nat) : RegCache :=
  { c with
    regs := fun i => if i = r then v else c.regs i
    regs_avail := c.regs_avail ||| (1 <<< r)
    regs_dirty := c.regs_dirty ||| (1 <<< r) }

/-- Modelled from the spec (§4.5): reading a register first checks the
"available" bitmask; if set, the cached value is returned without touching
hardware state; if unset the value is pulled from the hardware-visible
state and the bit is set. Returns the value, the new cache, and whether a
hardware fetch happened. -/
def regRead (c : RegCache) (r : Nat) : Nat × RegCache × Bool :=
  if Nat.testBit c.regs_avail r then (c.regs r, c, false)
  else
    (c.hw r,
     { c with
       regs := fun i => if i = r then c.hw r else c.regs i
       regs_avail := c.regs_avail ||| (1 <<< r) }, true)

/-- Modelled from the spec (§4.5): immediately before guest entry, every
dirty register is flushed to the hardware-visible state and the dirty
bitmask is cleared. -/
def flushDirty (c : RegCache) : RegCache :=
  { c with
    hw := fun i => if Nat.testBit c.regs_dirty i then c.regs i else c.hw i
    regs_dirty := 0 }

/-! ### Concrete states used by the witness theorems -/

/-- The snapshot produced by creating slot 7 = [0, 16) in an empty space. -/
def snapC1 : Memslots := mkSnapshot 1 [⟨0, 16, 0, 0, 7⟩]

/-- A snapshot holding one slot with id 0 covering guest frames [0, 16). -/
def memsC2 : Memslots := mkSnapshot 1 [⟨0, 16, 0, 0, 0⟩]

/-- A VM whose created-VCPU count has reached the capacity bound. -/
def fullVM : VMState := { vcpu_ids := [], created_vcpus := 288, online_vcpus := 0 }

/-- A VM with one VCPU, id 0. -/
def oneVcpuVM : VMState := { vcpu_ids := [0], created_vcpus := 1, online_vcpus := 1 }

/-- A core about to wrap: maximum tag 4, next tag 5. -/
def cpuW : CpuData := { asid_generation := 7, max_asid := 4, next_asid := 5 }

/-- A VCPU whose cached ASID generation is stale with respect to `cpuW`. -/
def vcpuW : VcpuAsid := { asid_generation := 3, asid := 2 }

/-- A register cache in which register 0 has been written (value 7,
available and dirty) and the hardware still holds 0. -/
def regCacheW : RegCache :=
  { regs := fun _ => 7, regs_avail := 1, regs_dirty := 1, hw := fun _ => 0 }

/-! ## Helper lemmas -/

theorem findIndexAux_get (l : List MemorySlot)
    (hu : l.Pairwise (fun a b => a.id ≠ b.id)) (k : Fin l.length) :
    findIndexAux l ((l.get k).id) = some k.val := by
  induction l with
  | nil => exact absurd k.isLt (by simp)
  | cons a t ih =>
    obtain ⟨ha, ht⟩ := List.pairwise_cons.mp hu
    obtain ⟨j, hj⟩ := k
    cases j with
    | zero => simp [findIndexAux]
    | succ j =>
      have hjt : j < t.length := Nat.lt_of_succ_lt_succ hj
      have hne : a.id ≠ (t.get ⟨j, hjt⟩).id := ha _ (t.get_mem j hjt)
      have hget : ((a :: t).get ⟨j + 1, hj⟩) = t.get ⟨j, hjt⟩ := rfl
      rw [hget]
      simp only [findIndexAux, if_neg hne]
      rw [ih ht ⟨j, hjt⟩]
      rfl

theorem consistent_mkSnapshot (gen : Nat) (l : List MemorySlot)
    (hu : l.Pairwise (fun a b => a.id ≠ b.id)) :
    consistent (mkSnapshot gen l) :=
  ⟨hu, fun k => findIndexAux_get l hu k⟩

theorem slotWithId_none_ids (s : Memslots) (i : Nat)
    (h : slotWithId s i = none) : ∀ sl ∈ s.memslots, sl.id ≠ i := by
  intro sl hm
  have := List.find?_eq_none.mp h sl hm
  simpa using this

theorem update_keeps_id (p : MemorySlot → Prop) [DecidablePred p]
    (f : MemorySlot → MemorySlot) (hf : ∀ sl, (f sl).id = sl.id)
    (sl : MemorySlot) : ((if p sl then f sl else sl) : MemorySlot).id = sl.id := by
  split
  · exact hf sl
  · rfl

theorem applyChange_ok (s : Memslots) (ch : vmrun_mr_change)
    (slot_id base_gfn npages userspace_addr flags : Nat) (s2 : Memslots)
    (h : applyChange s ch slot_id base_gfn npages userspace_addr flags = Except.ok s2) :
    s2.generation = s.generation + 1 ∧
    (s.memslots.Pairwise (fun a b => a.id ≠ b.id) → consistent s2) := by
  cases ch with
  | VMRUN_MR_CREATE =>
    simp only [applyChange] at h
    split at h
    · exact absurd h (by simp)
    · split at h
      · exact absurd h (by simp)
      · rename_i hocc hover
        cases h
        refine ⟨rfl, fun hu => consistent_mkSnapshot _ _ ?_⟩
        have hnone : slotWithId s slot_id = none :=
          Option.not_isSome_iff_eq_none.mp hocc
        refine List.pairwise_append.mpr ⟨hu, List.pairwise_singleton _ _, ?_⟩
        intro a ha b hb
        have hb' : b = ⟨base_gfn, npages, userspace_addr, flags, slot_id⟩ := by
          simpa using hb
        subst hb'
        exact slotWithId_none_ids s slot_id hnone a ha
  | VMRUN_MR_DELETE =>
    simp only [applyChange] at h
    split at h
    · cases h
      exact ⟨rfl, fun hu => consistent_mkSnapshot _ _ (hu.filter _)⟩
    · exact absurd h (by simp)
  | VMRUN_MR_MOVE =>
    simp only [applyChange] at h
    split at h
    · cases h
      refine ⟨rfl, fun hu => consistent_mkSnapshot _ _ ?_⟩
      refine List.pairwise_map.mpr (hu.imp ?_)
      intro a b hab
      have hida : ∀ sl : MemorySlot,
          ((if sl.id = slot_id then
              { sl with base_gfn := base_gfn, userspace_addr := userspace_addr }
            else sl) : MemorySlot).id = sl.id := by
        intro sl; split <;> rfl
      rw [hida a, hida b]
      exact hab
    · exact absurd h (by simp)
  | VMRUN_MR_FLAGS_ONLY =>
    simp only [applyChange] at h
    split at h
    · cases h
      refine ⟨rfl, fun hu => consistent_mkSnapshot _ _ ?_⟩
      refine List.pairwise_map.mpr (hu.imp ?_)
      intro a b hab
      have hida : ∀ sl : MemorySlot,
          ((if sl.id = slot_id then { sl with flags := flags } else sl) :
            MemorySlot).id = sl.id := by
        intro sl; split <;> rfl
      rw [hida a, hida b]
      exact hab
    · exact absurd h (by simp)

theorem setMemoryRegion_ok (s : Memslots)
    (slot_id base_gfn npages userspace_addr flags : Nat) (s2 : Memslots)
    (h : setMemoryRegion s slot_id base_gfn npages userspace_addr flags = Except.ok s2) :
    s2.generation = s.generation + 1 ∧ (consistent s → consistent s2) := by
  simp only [setMemoryRegion] at h
  split at h
  · exact absurd h (by simp)
  · split at h
    · exact absurd h (by simp)
    · rename_i ch hch
      have := applyChange_ok s ch slot_id base_gfn npages userspace_addr flags s2 h
      exact ⟨this.1, fun hc => this.2 hc.1⟩

/-! ## Claim theorems -/

/-- C1: the initial snapshot of an address space is internally consistent,
and every applied slot mutation (create, delete, move, flags-only, all
routed through `setMemoryRegion`) produces a new snapshot whose generation
is the previous generation plus exactly one and which is again internally
consistent (slot ids unique, `id_to_index` mapping each slot id to that
slot's index in the slot array). -/
theorem memslot_mutation_generation_C1 (s s2 : Memslots)
    (slot_id base_gfn npages userspace_addr flags : Nat)
    (h : setMemoryRegion s slot_id base_gfn npages userspace_addr flags = Except.ok s2) :
    consistent emptyMemslots ∧
    s2.generation = s.generation + 1 ∧
    (consistent s → consistent s2) := by
  have hmain := setMemoryRegion_ok s slot_id base_gfn npages userspace_addr flags s2 h
  exact ⟨by decide, hmain.1, hmain.2⟩

theorem memslot_mutation_generation_C1_witness :
    setMemoryRegion emptyMemslots 7 0 16 0 0 = Except.ok snapC1 ∧
    (consistent emptyMemslots ∧
      snapC1.generation = emptyMemslots.generation + 1 ∧
      (consistent emptyMemslots → consistent snapC1)) :=
  ⟨rfl, memslot_mutation_generation_C1 emptyMemslots snapC1 7 0 16 0 0 rfl⟩

/-- C2: a create request (valid, unoccupied slot id and a nonzero page
count) whose guest-frame range [base_gfn, base_gfn + npages) intersects
the range of some existing slot of the address space fails with `Overlap`,
and the previously published snapshot is returned unchanged — no slot is
added or modified and the generation is not incremented. -/
theorem create_overlap_rejected_C2 (s : Memslots)
    (slot_id base_gfn npages userspace_addr flags : Nat)
    (hid : slot_id < VMRUN_MEM_SLOTS_NUM)
    (hfree : slotWithId s slot_id = none)
    (hnp : npages ≠ 0)
    (hover : ∃ sl ∈ s.memslots,
      rangesOverlap base_gfn npages sl.base_gfn sl.npages = true) :
    vmrunSetUserMemoryRegion s slot_id base_gfn npages userspace_addr flags
      = (s, some SlotError.Overlap) := by
  have hany : s.memslots.any
      (fun sl => rangesOverlap base_gfn npages sl.base_gfn sl.npages) = true := by
    obtain ⟨sl, hm, ho⟩ := hover
    exact List.any_eq_true.mpr ⟨sl, hm, ho⟩
  have hset : setMemoryRegion s slot_id base_gfn npages userspace_addr flags
      = Except.error SlotError.Overlap := by
    simp only [setMemoryRegion, if_neg (Nat.not_le.mpr hid), hfree, classifyChange,
      if_neg hnp, applyChange, Option.isSome_none, Bool.false_eq_true, if_false, hany,
      if_true]
  simp only [vmrunSetUserMemoryRegion, hset]

theorem create_overlap_rejected_C2_witness :
    (1 : Nat) < VMRUN_MEM_SLOTS_NUM ∧
    slotWithId memsC2 1 = none ∧
    (16 : Nat) ≠ 0 ∧
    vmrunSetUserMemoryRegion memsC2 1 8 16 0 0 = (memsC2, some SlotError.Overlap) :=
  ⟨by decide, by decide, by decide,
   create_overlap_rejected_C2 memsC2 1 8 16 0 0 (by decide) (by decide) (by decide)
     ⟨⟨0, 16, 0, 0, 0⟩, by decide, by decide⟩⟩

/-- C3: `create_vcpu(vm, id)` fails with `CapacityExceeded` when the VM's
created-VCPU count has reached the capacity bound `VMRUN_MAX_VCPUS = 288`,
and (capacity permitting) fails with `InvalidId` when the id is outside
0..max−1 or already used by an existing VCPU; on either failure the VM —
its VCPU table and both counters — is returned unchanged. -/
theorem create_vcpu_errors_C3 (vm : VMState) (id : Nat) :
    VMRUN_MAX_VCPUS = 288 ∧
    (VMRUN_MAX_VCPUS ≤ vm.created_vcpus →
      vmrunCreateVcpu vm id = (vm, some VcpuError.CapacityExceeded)) ∧
    (vm.created_vcpus < VMRUN_MAX_VCPUS →
      (VMRUN_MAX_VCPUS ≤ id ∨ id ∈ vm.vcpu_ids) →
      vmrunCreateVcpu vm id = (vm, some VcpuError.InvalidId)) := by
  refine ⟨by decide, fun hcap => ?_, fun hcap hid => ?_⟩
  · simp only [vmrunCreateVcpu, createVcpu, if_pos hcap]
  · have hnot : ¬ VMRUN_MAX_VCPUS ≤ vm.created_vcpus := Nat.not_le.mpr hcap
    rcases hid with hge | hmem
    · simp only [vmrunCreateVcpu, createVcpu, if_neg hnot, if_pos hge]
    · by_cases hge : VMRUN_MAX_VCPUS ≤ id
      · simp only [vmrunCreateVcpu, createVcpu, if_neg hnot, if_pos hge]
      · simp only [vmrunCreateVcpu, createVcpu, if_neg hnot, if_neg hge, if_pos hmem]

theorem create_vcpu_errors_C3_witness :
    VMRUN_MAX_VCPUS ≤ fullVM.created_vcpus ∧
    oneVcpuVM.created_vcpus < VMRUN_MAX_VCPUS ∧
    (0 ∈ oneVcpuVM.vcpu_ids) ∧
    vmrunCreateVcpu fullVM 0 = (fullVM, some VcpuError.CapacityExceeded) ∧
    vmrunCreateVcpu oneVcpuVM 0 = (oneVcpuVM, some VcpuError.InvalidId) :=
  ⟨by decide, by decide, by decide,
   (create_vcpu_errors_C3 fullVM 0).2.1 (by decide),
   (create_vcpu_errors_C3 oneVcpuVM 0).2.2 (by decide) (Or.inr (by decide))⟩

/-! ### ASID iteration lemmas -/

theorem asidAssignIter_add (a b : Nat) (sd : CpuData) :
    asidAssignIter (a + b) sd = asidAssignIter b (asidAssignIter a sd) := by
  induction a generalizing sd with
  | zero => simp [asidAssignIter]
  | succ a ih =>
    have h1 : a + 1 + b = (a + b) + 1 := by omega
    rw [h1]
    show asidAssignIter (a + b) (newAsid sd).1
      = asidAssignIter b (asidAssignIter a (newAsid sd).1)
    exact ih (newAsid sd).1

theorem asidAssignIter_no_wrap (g n : Nat) :
    ∀ (k j : Nat), 1 ≤ j → j + k ≤ n + 1 →
    asidAssignIter k ⟨g, n, j⟩ = ⟨g, n, j + k⟩ := by
  intro k
  induction k with
  | zero =>
    intro j h1 h2
    simp [asidAssignIter]
  | succ k ih =>
    intro j h1 h2
    have hnw : ¬ n < j := by omega
    have hstep : (newAsid ⟨g, n, j⟩).1 = ⟨g, n, j + 1⟩ := by
      simp [newAsid, hnw]
    show asidAssignIter k (newAsid ⟨g, n, j⟩).1 = ⟨g, n, j + (k + 1)⟩
    rw [hstep, ih (j + 1) (by omega) (by omega)]
    have : j + 1 + k = j + (k + 1) := by omega
    rw [this]

theorem asid_wrap_once (g n : Nat) :
    asidAssignIter (n + 1) (freshCpuData g n)
      = { asid_generation := g + 1, max_asid := n, next_asid := 2 } := by
  have h1 : asidAssignIter n (freshCpuData g n) = ⟨g, n, 1 + n⟩ :=
    asidAssignIter_no_wrap g n n 1 (Nat.le_refl 1) (by omega)
  rw [asidAssignIter_add n 1, h1]
  show (newAsid ⟨g, n, 1 + n⟩).1 = _
  have hlt : n < 1 + n := by omega
  simp [newAsid, hlt]

/-- C4: when the next tag would exceed `max_asid`, a tag assignment
increments the core's generation by exactly one and restarts from the
first usable tag (1); consequently, on a core with `max_asid = n`, the
(n+1)-st tag assignment after initialization leaves the generation
incremented exactly once; and at guest entry a VCPU whose cached
generation differs from the core's current generation receives the freshly
assigned tag, updates its cached generation to the core's, and has a full
TLB flush forced for that entry. -/
theorem asid_wraparound_C4 (g n : Nat) (sd : CpuData) (v : VcpuAsid) :
    (sd.max_asid < sd.next_asid →
      (newAsid sd).1.asid_generation = sd.asid_generation + 1 ∧
      (newAsid sd).1.next_asid = 2 ∧ (newAsid sd).2 = 1) ∧
    (asidAssignIter (n + 1) (freshCpuData g n)).asid_generation = g + 1 ∧
    (v.asid_generation ≠ sd.asid_generation →
      (preEntryAsid sd v).2.2 = true ∧
      (preEntryAsid sd v).1 = (newAsid sd).1 ∧
      (preEntryAsid sd v).2.1.asid_generation = (newAsid sd).1.asid_generation ∧
      (preEntryAsid sd v).2.1.asid = (newAsid sd).2) := by
  refine ⟨fun hw => ?_, ?_, fun hst => ?_⟩
  · simp [newAsid, hw]
  · rw [asid_wrap_once g n]
  · simp [preEntryAsid, hst]

theorem asid_wraparound_C4_witness :
    cpuW.max_asid < cpuW.next_asid ∧
    vcpuW.asid_generation ≠ cpuW.asid_generation ∧
    ((newAsid cpuW).1.asid_generation = cpuW.asid_generation + 1 ∧
      (newAsid cpuW).1.next_asid = 2 ∧ (newAsid cpuW).2 = 1) ∧
    (asidAssignIter (4 + 1) (freshCpuData 7 4)).asid_generation = 7 + 1 ∧
    ((preEntryAsid cpuW vcpuW).2.2 = true ∧
      (preEntryAsid cpuW vcpuW).1 = (newAsid cpuW).1 ∧
      (preEntryAsid cpuW vcpuW).2.1.asid_generation
        = (newAsid cpuW).1.asid_generation ∧
      (preEntryAsid cpuW vcpuW).2.1.asid = (newAsid cpuW).2) :=
  ⟨by decide, by decide,
   (asid_wraparound_C4 7 4 cpuW vcpuW).1 (by decide),
   (asid_wraparound_C4 7 4 cpuW vcpuW).2.1,
   (asid_wraparound_C4 7 4 cpuW vcpuW).2.2 (by decide)⟩

/-- C9: writing a register sets both its "available" and its "dirty" bit;
flushing the dirty registers writes each dirty register's cached value to
the hardware-visible state, leaves the dirty bitmask exactly zero and the
available bits unchanged (so the flushed registers stay available); and a
subsequent read of a flushed register returns the flushed value from the
cache, leaves the state unchanged, and performs no hardware fetch. -/
theorem reg_cache_flush_C9 (c : RegCache) (r v : Nat) (_hr : r < NR_VCPU_REGS) :
    Nat.testBit (regWrite c r v).regs_avail r = true ∧
    Nat.testBit (regWrite c r v).regs_dirty r = true ∧
    (regWrite c r v).regs r = v ∧
    (flushDirty c).regs_dirty = 0 ∧
    (flushDirty c).regs_avail = c.regs_avail ∧
    (Nat.testBit c.regs_dirty r = true → Nat.testBit c.regs_avail r = true →
      (flushDirty c).hw r = c.regs r ∧
      regRead (flushDirty c) r = (c.regs r, flushDirty c, false)) := by
  have hbit : ∀ x : Nat, Nat.testBit (x ||| (1 <<< r)) r = true := by
    intro x
    rw [Nat.shiftLeft_eq, one_mul, Nat.testBit_or, Nat.testBit_two_pow_self,
      Bool.or_true]
  refine ⟨hbit _, hbit _, by simp [regWrite], rfl, rfl, fun hd ha => ⟨?_, ?_⟩⟩
  · show (if Nat.testBit c.regs_dirty r then c.regs r else c.hw r) = c.regs r
    rw [if_pos hd]
  · show regRead (flushDirty c) r = _
    unfold regRead
    have ha' : (flushDirty c).regs_avail.testBit r = true := ha
    rw [if_pos ha']
    rfl

theorem reg_cache_flush_C9_witness :
    (0 : Nat) < NR_VCPU_REGS ∧
    Nat.testBit regCacheW.regs_dirty 0 = true ∧
    Nat.testBit regCacheW.regs_avail 0 = true ∧
    (Nat.testBit (regWrite regCacheW 0 7).regs_avail 0 = true ∧
      Nat.testBit (regWrite regCacheW 0 7).regs_dirty 0 = true ∧
      (regWrite regCacheW 0 7).regs 0 = 7 ∧
      (flushDirty regCacheW).regs_dirty = 0 ∧
      (flushDirty regCacheW).regs_avail = regCacheW.regs_avail ∧
      (Nat.testBit regCacheW.regs_dirty 0 = true →
        Nat.testBit regCacheW.regs_avail 0 = true →
        (flushDirty regCacheW).hw 0 = regCacheW.regs 0 ∧
        regRead (flushDirty regCacheW) 0
          = (regCacheW.regs 0, flushDirty regCacheW, false))) :=
  ⟨by decide, by decide, by decide, reg_cache_flush_C9 regCacheW 0 7 (by decide)⟩

/-- C5: the slot-id space of an address space has exactly
`VMRUN_USER_MEM_SLOTS + VMRUN_PRIVATE_MEM_SLOTS = 512` ids; exactly the top
three ids (509, 510, 511) are the reserved private slots, assigned
respectively to the task-state-segment page, the local-APIC access page,
and the identity page table; and every private slot id is strictly greater
than every user-visible slot id. -/
theorem private_slot_ids_C5 :
    VMRUN_USER_MEM_SLOTS + VMRUN_PRIVATE_MEM_SLOTS = 512 ∧
    VMRUN_MEM_SLOTS_NUM = 512 ∧
    VMRUN_TSS_PRIVATE_MEMSLOT = 509 ∧
    VMRUN_APIC_ACCESS_PAGE_PRIVATE_MEMSLOT = 510 ∧
    VMRUN_IDENTITY_PAGETABLE_PRIVATE_MEMSLOT = 511 ∧
    (∀ i : Nat, VMRUN_USER_MEM_SLOTS ≤ i → i < VMRUN_MEM_SLOTS_NUM →
      i = VMRUN_TSS_PRIVATE_MEMSLOT ∨
      i = VMRUN_APIC_ACCESS_PAGE_PRIVATE_MEMSLOT ∨
      i = VMRUN_IDENTITY_PAGETABLE_PRIVATE_MEMSLOT) ∧
    (∀ u p : Nat, u < VMRUN_USER_MEM_SLOTS →
      VMRUN_USER_MEM_SLOTS ≤ p → p < VMRUN_MEM_SLOTS_NUM → u < p) := by
  refine ⟨by decide, by decide, by decide, by decide, by decide, ?_, ?_⟩
  · intro i h1 h2
    simp only [VMRUN_USER_MEM_SLOTS, VMRUN_MEM_SLOTS_NUM, VMRUN_PRIVATE_MEM_SLOTS,
      VMRUN_TSS_PRIVATE_MEMSLOT, VMRUN_APIC_ACCESS_PAGE_PRIVATE_MEMSLOT,
      VMRUN_IDENTITY_PAGETABLE_PRIVATE_MEMSLOT] at *
    omega
  · intro u p h1 h2 h3
    simp only [VMRUN_USER_MEM_SLOTS] at *
    omega

theorem private_slot_ids_C5_witness :
    VMRUN_USER_MEM_SLOTS ≤ 510 ∧ (510 : Nat) < VMRUN_MEM_SLOTS_NUM ∧
    (508 : Nat) < VMRUN_USER_MEM_SLOTS ∧
    ((510 : Nat) = VMRUN_TSS_PRIVATE_MEMSLOT ∨
      (510 : Nat) = VMRUN_APIC_ACCESS_PAGE_PRIVATE_MEMSLOT ∨
      (510 : Nat) = VMRUN_IDENTITY_PAGETABLE_PRIVATE_MEMSLOT) ∧
    (508 : Nat) < 510 :=
  ⟨by decide, by decide, by decide,
   private_slot_ids_C5.2.2.2.2.2.1 510 (by decide) (by decide),
   private_slot_ids_C5.2.2.2.2.2.2 508 510 (by decide) (by decide) (by decide)⟩

/-- C6: in the pending-request encoding, the action-number field is exactly
bits 7:0 (`VMRUN_REQUEST_MASK = 0xff`), the no-wakeup modifier is exactly
bit 8, the wait modifier is exactly bit 9 — the three are pairwise
disjoint — and the TLB-flush request is action number 0 carrying both the
no-wakeup and the wait modifier bits. -/
theorem request_bit_layout_C6 :
    VMRUN_REQUEST_MASK = 2 ^ 8 - 1 ∧
    VMRUN_REQUEST_NO_WAKEUP = 2 ^ 8 ∧
    VMRUN_REQUEST_WAIT = 2 ^ 9 ∧
    VMRUN_REQUEST_MASK &&& VMRUN_REQUEST_NO_WAKEUP = 0 ∧
    VMRUN_REQUEST_MASK &&& VMRUN_REQUEST_WAIT = 0 ∧
    VMRUN_REQUEST_NO_WAKEUP &&& VMRUN_REQUEST_WAIT = 0 ∧
    VMRUN_REQ_TLB_FLUSH &&& VMRUN_REQUEST_MASK = 0 ∧
    VMRUN_REQ_TLB_FLUSH &&& VMRUN_REQUEST_NO_WAKEUP = VMRUN_REQUEST_NO_WAKEUP ∧
    VMRUN_REQ_TLB_FLUSH &&& VMRUN_REQUEST_WAIT = VMRUN_REQUEST_WAIT := by
  decide

/-- C7: the set of control-block sections rewritten before an entry is the
dirty-section bitmask together with the always-dirty sections, and the
always-dirty mask has exactly two bits set: the interrupt-control section
`VMCB_INTR` and the CR2 section `VMCB_CR2`. -/
theorem always_dirty_sections_C7 :
    (∀ d : Nat, sectionsRewritten d = d ||| VMCB_ALWAYS_DIRTY_MASK) ∧
    (∀ i : Nat, Nat.testBit VMCB_ALWAYS_DIRTY_MASK i = true ↔
      (i = VMCB_INTR ∨ i = VMCB_CR2)) := by
  refine ⟨fun d => rfl, fun i => ?_⟩
  have hmask : VMCB_ALWAYS_DIRTY_MASK = 2 ^ 3 ||| 2 ^ 9 := by decide
  rw [hmask, Nat.testBit_or, Nat.testBit_two_pow, Nat.testBit_two_pow]
  simp only [VMCB_INTR, VMCB_CR2, Bool.or_eq_true, decide_eq_true_eq]
  constructor
  · rintro (h | h) <;> [exact Or.inl h.symm; exact Or.inr h.symm]
  · rintro (h | h) <;> [exact Or.inl h.symm; exact Or.inr h.symm]

/-- C8 (counterexample): the two nested-fault indicator masks are defined
at bit positions 32 and 33, so when passed in the `u32 err` parameter of
the `page_fault` callback both truncate to zero — they do not remain
nonzero and they are not mutually distinct there, contradicting the claim
at the concrete inputs `PFERR_GUEST_FINAL_MASK` and
`PFERR_GUEST_PAGE_MASK`. -/
theorem pferr_nested_bits_C8_counterexample :
    PFERR_GUEST_FINAL_MASK = 2 ^ 32 ∧
    PFERR_GUEST_PAGE_MASK = 2 ^ 33 ∧
    pageFaultErrParam PFERR_GUEST_FINAL_MASK = 0 ∧
    pageFaultErrParam PFERR_GUEST_PAGE_MASK = 0 ∧
    pageFaultErrParam PFERR_GUEST_FINAL_MASK
      = pageFaultErrParam PFERR_GUEST_PAGE_MASK := by
  decide

/-- C8 (amended): the six architectural indicators (present, write, user,
reserved, fetch, protection-key) are pairwise distinct nonzero values that
pass through the `u32 err` parameter unchanged; the two nested-fault
indicators are distinct nonzero 64-bit values (bits 32 and 33), but they
are not representable in the `u32 err` parameter — both truncate to zero
there. -/
theorem pferr_bits_C8_amended :
    ([PFERR_PRESENT_MASK, PFERR_WRITE_MASK, PFERR_USER_MASK, PFERR_RSVD_MASK,
      PFERR_FETCH_MASK, PFERR_PK_MASK] : List Nat).Nodup ∧
    (([PFERR_PRESENT_MASK, PFERR_WRITE_MASK, PFERR_USER_MASK, PFERR_RSVD_MASK,
       PFERR_FETCH_MASK, PFERR_PK_MASK] : List Nat).all
      (fun m => decide (0 < m) && decide (pageFaultErrParam m = m))) = true ∧
    ([PFERR_GUEST_FINAL_MASK, PFERR_GUEST_PAGE_MASK] : List Nat).Nodup ∧
    0 < PFERR_GUEST_FINAL_MASK ∧
    0 < PFERR_GUEST_PAGE_MASK ∧
    pageFaultErrParam PFERR_GUEST_FINAL_MASK = 0 ∧
    pageFaultErrParam PFERR_GUEST_PAGE_MASK = 0 := by
  decide

/-- C10: every register tracked by the lazy-cache bitmasks has a distinct
bit index strictly below 32, so the 32-bit "available" and "dirty"
bitmasks cover the whole register file: the general register indices run
0..16 (`NR_VCPU_REGS = 17`) and the largest extended-register index
(`VCPU_EXREG_SEGMENTS = 20`) is also below 32. -/
theorem reg_bit_indices_C10 :
    NR_VCPU_REGS = 17 ∧
    VCPU_REGS_RIP = 16 ∧
    VCPU_EXREG_SEGMENTS = 20 ∧
    trackedRegIndices.Nodup ∧
    (trackedRegIndices.all (fun i => decide (i < 32))) = true ∧
    trackedRegIndices.length = NR_VCPU_REGS + 4 := by
  decide

end Vmrun
